import Mathlib

/-!
Verification of the image-scraping pipeline in `scraper.py`.

The discovery/extraction/download pipeline is embedded shallowly:

* Regex `findall` results are modelled abstractly: an `Html` value carries the
  list of matches of the primary (`"ou":"…"`) pattern and of the fallback
  (image-extension) pattern, since every property of interest is stated at the
  level of those match lists.
* Network effects are modelled by an environment (`RunEnv`) that fixes, for one
  run, the outcome of the browser-automation strategy, of the lightweight
  strategy, and of each per-URL download request.
* Python exceptions become explicit `Except` values; `str.lower`, substring
  containment (`in`), `re.sub(r"\W+", "_", …)` and `str.strip("_")` are
  embedded directly (ASCII semantics, which is what the code exercises).
-/

namespace SmartScrape

/-- `charsStartWith n h` decides whether the char list `h` starts with `n`. -/
def charsStartWith : List Char → List Char → Bool
  | [], _ => true
  | _ :: _, [] => false
  | a :: as, b :: bs => a == b && charsStartWith as bs

/-- `charsContain n h` decides whether `n` occurs contiguously inside `h`
(Python's `n in h` for strings). -/
def charsContain (needle : List Char) : List Char → Bool
  | [] => charsStartWith needle []
  | c :: rest => charsStartWith needle (c :: rest) || charsContain needle rest

/-- Python's substring test `needle in hay`. -/
def strContains (needle hay : String) : Bool :=
  charsContain needle.data hay.data

/-- Python's `str.lower()` (ASCII range, which is all the code compares). -/
def pyLower (s : String) : String :=
  ⟨s.data.map Char.toLower⟩

/-! ### Shared helpers of `scraper.py` -/

/-- `_SKIP_DOMAINS`: Google-owned domain substrings that are filtered out. -/
def SKIP_DOMAINS : List String :=
  ["google.", "gstatic.", "googleapis.", "googleusercontent."]

/-- `_is_external_image(url)`: true iff no denylisted substring occurs in the
whole URL string (`any(d in url for d in _SKIP_DOMAINS)` negated). -/
def is_external_image (url : String) : Bool :=
  ! SKIP_DOMAINS.any (fun d => strContains d url)

/-- A page of markup, represented by the result of the two `findall` calls:
`ouMatches` is `_OU_PATTERN.findall(html)` and `fallbackMatches` is
`_FALLBACK_PATTERN.findall(html)`. -/
structure Html where
  ouMatches : List String
  fallbackMatches : List String
deriving DecidableEq, Repr

/-- The `seen`/`unique` loop of `_extract_urls`: keep a URL iff it has not been
seen yet and `_is_external_image` accepts it. -/
def dedupLoop (seen : List String) : List String → List String
  | [] => []
  | url :: rest =>
    if !seen.contains url && is_external_image url then
      url :: dedupLoop (url :: seen) rest
    else
      dedupLoop seen rest

/-- `_extract_urls(html, max_images)`: primary matches, else fallback matches;
then first-seen dedup + domain filter; then truncation `unique[:max_images]`. -/
def extract_urls (html : Html) (max_images : Nat) : List String :=
  let urls := if html.ouMatches.isEmpty then html.fallbackMatches else html.ouMatches
  (dedupLoop [] urls).take max_images

/-! ### Strategy selector -/

/-- A Python exception escaping a fetch strategy: `ImportError` (selenium not
installed) or any other `Exception` (WebDriver launch, HTTP error, …). -/
inductive Exc where
  | importError
  | runtimeExc (msg : String)
deriving DecidableEq, Repr

/-- Outcome of one download request: a transport exception (from `requests.get`
/ `raise_for_status` / connection), a complete response, or a response whose
body stream fails midway after `sofar` bytes were written. -/
inductive HttpResult where
  | transportExc
  | resp (statusOk : Bool) (contentType : String) (body : List Nat)
  | respMidFail (statusOk : Bool) (contentType : String) (sofar : List Nat)
deriving DecidableEq, Repr

/-- The ambient network/environment for one pipeline run: what the selenium
strategy would yield, what the requests strategy would yield, and the HTTP
outcome of downloading each URL. -/
structure RunEnv where
  seleniumResult : Except Exc Html
  requestsResult : Except Exc Html
  dl : String → HttpResult

/-- `_fetch_urls_requests`: fetch the page (may raise) and extract URLs. -/
def fetch_urls_requests (env : RunEnv) (max_images : Nat) :
    Except Exc (List String) :=
  env.requestsResult.map (fun h => extract_urls h max_images)

/-- `fetch_image_urls(query, max_images)` for a configured `SCRAPE_BACKEND`:
if `SCRAPE_BACKEND.lower() == "selenium"`, try selenium; on `ImportError` or
any other `Exception`, fall through to the requests backend (whose own failure
then propagates).  Any other configured value goes straight to requests. -/
def fetch_image_urls (SCRAPE_BACKEND : String) (env : RunEnv) (max_images : Nat) :
    Except Exc (List String) :=
  let backend := pyLower SCRAPE_BACKEND
  if backend == "selenium" then
    match env.seleniumResult with
    | .ok html => .ok (extract_urls html max_images)
    | .error _ => fetch_urls_requests env max_images
  else
    fetch_urls_requests env max_images

/-! ### Download executor -/

/-- Result of `download_image`: the returned boolean and the bytes written to
`save_path` (`none` when nothing was written). -/
structure DlOutcome where
  success : Bool
  written : Option (List Nat)
deriving DecidableEq, Repr

/-- `download_image(image_url, save_path)` as a function of the HTTP outcome:
any exception yields `False`; a non-success status raises in
`raise_for_status` and is caught (`False`, nothing written); a content type
containing neither `"image"` nor `"octet-stream"` is rejected before the file
is opened (`False`, nothing written); otherwise the body is written and `True`
returned, except that a mid-stream failure is caught (`False`) after a partial
write. -/
def download_image (r : HttpResult) : DlOutcome :=
  match r with
  | .transportExc => ⟨false, none⟩
  | .resp statusOk contentType body =>
    if !statusOk then ⟨false, none⟩
    else if !strContains "image" contentType && !strContains "octet-stream" contentType then
      ⟨false, none⟩
    else ⟨true, some body⟩
  | .respMidFail statusOk contentType sofar =>
    if !statusOk then ⟨false, none⟩
    else if !strContains "image" contentType && !strContains "octet-stream" contentType then
      ⟨false, none⟩
    else ⟨false, some sofar⟩

/-! ### Pipeline orchestrator -/

/-- `re.sub(r"\W+", "_", query)`: each maximal run of non-word characters is
replaced by a single underscore.  The boolean accumulator records whether the
previous character was part of such a run. -/
def isWordChar (c : Char) : Bool :=
  c.isAlpha || c.isDigit || c == '_'

def subNonWord : List Char → Bool → List Char
  | [], _ => []
  | c :: rest, inRun =>
    if isWordChar c then c :: subNonWord rest false
    else if inRun then subNonWord rest true
    else '_' :: subNonWord rest true

/-- `str.strip("_")`: drop leading and trailing underscores. -/
def stripUnderscores (l : List Char) : List Char :=
  ((l.dropWhile (· == '_')).reverse.dropWhile (· == '_')).reverse

/-- `safe_query = re.sub(r"\W+", "_", query).strip("_")`. -/
def safeQueryOf (query : String) : String :=
  ⟨stripUnderscores (subNonWord query.data false)⟩

/-- One metadata dict appended to `results` in `scrape_and_save`. -/
structure DownloadRecord where
  query : String
  index : Nat
  url : String
  filename : String
  static_path : String
  backend : String
deriving DecidableEq, Repr

/-- The `for index, url in enumerate(image_urls)` loop of `scrape_and_save`:
the filename uses the enumerate index; a record is appended only when
`download_image` returns `True`, carrying that same enumerate index. -/
def downloadLoop (query safe_query backend_used : String) (dl : String → HttpResult) :
    Nat → List String → List DownloadRecord
  | _, [] => []
  | index, url :: rest =>
    let filename := safe_query ++ "_" ++ toString index ++ ".jpg"
    if (download_image (dl url)).success then
      { query := query, index := index, url := url, filename := filename,
        static_path := "images/" ++ filename, backend := backend_used } ::
      downloadLoop query safe_query backend_used dl (index + 1) rest
    else
      downloadLoop query safe_query backend_used dl (index + 1) rest

/-- A failure of the whole pipeline: the `ValueError` raised on an empty
candidate list, or an exception propagated from the fetch layer. -/
inductive PipelineError where
  | valueError (query : String)
  | fetchExc (e : Exc)
deriving DecidableEq, Repr

/-- `scrape_and_save(query, max_images)`: compute the slug and
`backend_used = SCRAPE_BACKEND.lower()`, fetch candidate URLs (errors
propagate), raise `ValueError` when the list is empty, else run the download
loop from index 0. -/
def scrape_and_save (query SCRAPE_BACKEND : String) (env : RunEnv) (max_images : Nat) :
    Except PipelineError (List DownloadRecord) :=
  let safe_query := safeQueryOf query
  let backend_used := pyLower SCRAPE_BACKEND
  match fetch_image_urls SCRAPE_BACKEND env max_images with
  | .error e => .error (.fetchExc e)
  | .ok image_urls =>
    if image_urls.isEmpty then .error (.valueError query)
    else .ok (downloadLoop query safe_query backend_used env.dl 0 image_urls)

/-! ### Reference definition (spec wording) for first-seen deduplication -/

/-- Reference function for the spec's deduplication wording: keep the first
occurrence of each element, in order, dropping later repeats.  Used only to
compare the code's `seen`-set loop against the specified behaviour. -/
def specFirstSeenDedup : List String → List String
  | [] => []
  | x :: xs => x :: specFirstSeenDedup (xs.filter (fun y => y != x))
termination_by l => l.length
decreasing_by
  simp only [List.length_cons]
  exact Nat.lt_succ_of_le (List.length_filter_le _ _)

/-! ### Lemmas about substring containment -/

theorem charsStartWith_iff : ∀ (n h : List Char), charsStartWith n h = true ↔ ∃ t, h = n ++ t
  | [], h => by simp [charsStartWith]
  | _ :: _, [] => by simp [charsStartWith]
  | a :: as, b :: bs => by
    simp only [charsStartWith, Bool.and_eq_true, beq_iff_eq, charsStartWith_iff as bs,
      List.cons_append, List.cons.injEq]
    constructor
    · rintro ⟨rfl, t, rfl⟩
      exact ⟨t, rfl, rfl⟩
    · rintro ⟨t, rfl, rfl⟩
      exact ⟨rfl, t, rfl⟩

theorem charsContain_iff :
    ∀ (n h : List Char), charsContain n h = true ↔ ∃ p t, h = p ++ (n ++ t)
  | n, [] => by
    rw [charsContain, charsStartWith_iff]
    constructor
    · rintro ⟨t, ht⟩
      exact ⟨[], t, by simpa using ht⟩
    · rintro ⟨p, t, ht⟩
      obtain ⟨hp, hnt⟩ := List.append_eq_nil.mp ht.symm
      exact ⟨t, hnt.symm⟩
  | n, c :: rest => by
    rw [charsContain, Bool.or_eq_true, charsStartWith_iff, charsContain_iff n rest]
    constructor
    · rintro (⟨t, ht⟩ | ⟨p, t, ht⟩)
      · exact ⟨[], t, by simpa using ht⟩
      · exact ⟨c :: p, t, by simp [ht]⟩
    · rintro ⟨p, t, ht⟩
      cases p with
      | nil => exact Or.inl ⟨t, by simpa using ht⟩
      | cons x xs =>
        simp only [List.cons_append, List.cons.injEq] at ht
        exact Or.inr ⟨xs, t, ht.2⟩

/-- Substring containment is transitive (so a substring of the URL's host is a
substring of the whole URL string). -/
theorem strContains_trans (a b c : String) (hab : strContains a b = true)
    (hbc : strContains b c = true) : strContains a c = true := by
  rw [strContains, charsContain_iff] at hab hbc ⊢
  obtain ⟨p, t, hb⟩ := hab
  obtain ⟨q, s, hc⟩ := hbc
  exact ⟨q ++ p, t ++ s, by simp [hc, hb]⟩

/-! ### Lemmas about the extractor -/

theorem mem_dedupLoop : ∀ (seen l : List String) (u : String),
    u ∈ dedupLoop seen l → u ∈ l ∧ is_external_image u = true := by
  intro seen l
  induction l generalizing seen with
  | nil => intro u h; simp [dedupLoop] at h
  | cons v rest ih =>
    intro u h
    rw [dedupLoop] at h
    by_cases hc : (!seen.contains v && is_external_image v) = true
    · rw [if_pos hc] at h
      rcases List.mem_cons.mp h with rfl | h2
      · exact ⟨List.mem_cons_self _ _, (Bool.and_eq_true _ _ |>.mp hc).2⟩
      · obtain ⟨h3, h4⟩ := ih _ _ h2
        exact ⟨List.mem_cons_of_mem _ h3, h4⟩
    · rw [if_neg hc] at h
      obtain ⟨h3, h4⟩ := ih _ _ h
      exact ⟨List.mem_cons_of_mem _ h3, h4⟩

theorem dedupLoop_sublist : ∀ (seen l : List String), List.Sublist (dedupLoop seen l) l := by
  intro seen l
  induction l generalizing seen with
  | nil => exact List.Sublist.refl _
  | cons v rest ih =>
    rw [dedupLoop]
    by_cases hc : (!seen.contains v && is_external_image v) = true
    · rw [if_pos hc]
      exact List.Sublist.cons₂ _ (ih _)
    · rw [if_neg hc]
      exact List.Sublist.cons _ (ih _)

theorem mem_dedupLoop_not_seen : ∀ (seen l : List String) (u : String),
    u ∈ dedupLoop seen l → seen.contains u = false := by
  intro seen l
  induction l generalizing seen with
  | nil => intro u h; simp [dedupLoop] at h
  | cons v rest ih =>
    intro u h
    rw [dedupLoop] at h
    by_cases hc : (!seen.contains v && is_external_image v) = true
    · rw [if_pos hc] at h
      rcases List.mem_cons.mp h with rfl | h2
      · simpa using (Bool.and_eq_true _ _ |>.mp hc).1
      · have h3 := ih (v :: seen) u h2
        simp only [List.contains_cons, Bool.or_eq_false_iff] at h3
        exact h3.2
    · rw [if_neg hc] at h
      exact ih seen u h


theorem dedupLoop_nodup : ∀ (seen l : List String), (dedupLoop seen l).Nodup := by
  intro seen l
  induction l generalizing seen with
  | nil => simp [dedupLoop]
  | cons v rest ih =>
    rw [dedupLoop]
    by_cases hc : (!seen.contains v && is_external_image v) = true
    · rw [if_pos hc]
      refine List.nodup_cons.mpr ⟨fun hmem => ?_, ih _⟩
      have := mem_dedupLoop_not_seen (v :: seen) rest v hmem
      simp [List.contains_cons] at this
    · rw [if_neg hc]
      exact ih _

/-- The code's `seen`-set loop is exactly first-seen deduplication of the
filtered input: this characterises both the dedup order ("exactly once, at the
first occurrence position") and the filter. -/
theorem dedupLoop_eq_spec : ∀ (l seen : List String),
    dedupLoop seen l =
      specFirstSeenDedup (l.filter (fun u => !seen.contains u && is_external_image u)) := by
  intro l
  induction l with
  | nil => intro seen; simp [dedupLoop, specFirstSeenDedup]
  | cons v rest ih =>
    intro seen
    rw [dedupLoop]
    by_cases hc : (!seen.contains v && is_external_image v) = true
    · rw [if_pos hc, List.filter_cons, if_pos hc, specFirstSeenDedup, ih (v :: seen)]
      congr 1
      rw [List.filter_filter]
      congr 1
      refine List.filter_congr ?_
      intro x _
      cases hx : x == v <;> cases hs : seen.contains x <;>
        cases he : is_external_image x <;>
        simp only [List.contains_cons, bne, hx, hs, he] <;> rfl
    · rw [if_neg hc, List.filter_cons, if_neg hc]
      exact ih seen

/-! ### Lemmas about the download loop -/

theorem downloadLoop_length (q s b : String) (dl : String → HttpResult) :
    ∀ (urls : List String) (i : Nat),
      (downloadLoop q s b dl i urls).length =
        (urls.filter (fun u => (download_image (dl u)).success)).length := by
  intro urls
  induction urls with
  | nil => intro i; simp [downloadLoop]
  | cons u rest ih =>
    intro i
    rw [downloadLoop]
    by_cases hc : (download_image (dl u)).success = true
    · rw [if_pos hc, List.filter_cons, if_pos hc]
      simp [ih (i + 1)]
    · rw [if_neg hc, List.filter_cons, if_neg hc]
      exact ih (i + 1)

/-- Every record emitted by the download loop carries: the enumerate index of
its URL in the candidate list (offset by the start index), a filename built
from that same index, the fixed static-path prefix, the run's backend string,
the query, and a successful download for its URL. -/
theorem downloadLoop_mem (q s b : String) (dl : String → HttpResult) :
    ∀ (urls : List String) (i : Nat) (r : DownloadRecord),
      r ∈ downloadLoop q s b dl i urls →
      ∃ j, urls.get? j = some r.url ∧ r.index = i + j ∧
        r.filename = s ++ "_" ++ toString r.index ++ ".jpg" ∧
        r.static_path = "images/" ++ r.filename ∧
        r.backend = b ∧ r.query = q ∧
        (download_image (dl r.url)).success = true := by
  intro urls
  induction urls with
  | nil => intro i r h; simp [downloadLoop] at h
  | cons u rest ih =>
    intro i r h
    rw [downloadLoop] at h
    by_cases hc : (download_image (dl u)).success = true
    · rw [if_pos hc] at h
      rcases List.mem_cons.mp h with rfl | h2
      · exact ⟨0, rfl, rfl, rfl, rfl, rfl, rfl, hc⟩
      · obtain ⟨j, h1, h2, hrest⟩ := ih (i + 1) r h2
        exact ⟨j + 1, h1, by omega, hrest⟩
    · rw [if_neg hc] at h
      obtain ⟨j, h1, h2, hrest⟩ := ih (i + 1) r h
      exact ⟨j + 1, h1, by omega, hrest⟩

/-- Inverting a successful pipeline run: the fetched candidate list was
non-empty and the returned records are exactly the download loop's output. -/
theorem scrape_ok_inv (q b : String) (env : RunEnv) (n : Nat) (urls : List String)
    (hf : fetch_image_urls b env n = Except.ok urls) (recs : List DownloadRecord)
    (hr : scrape_and_save q b env n = Except.ok recs) :
    recs = downloadLoop q (safeQueryOf q) (pyLower b) env.dl 0 urls ∧ urls ≠ [] := by
  simp only [scrape_and_save, hf] at hr
  by_cases he : urls.isEmpty = true
  · rw [if_pos he] at hr
    exact absurd hr (by simp)
  · rw [if_neg he] at hr
    refine ⟨(Except.ok.inj hr).symm, ?_⟩
    simpa [List.isEmpty_iff] using he

/-! ### Claim theorems -/

/-- C3: when the configured backend is BrowserAutomation ("selenium") and it
fails, the strategy selector retries exactly once using the lightweight
strategy and the browser-automation error is never surfaced (the result is
exactly the lightweight strategy's result); when the configured backend is
Lightweight (any other value), the selector invokes the lightweight strategy
directly and its failure propagates to the caller unmodified with no further
fallback. -/
theorem C3_one_level_one_directional_degradation (env : RunEnv) (n : Nat) :
    (∀ e, env.seleniumResult = Except.error e →
      fetch_image_urls "selenium" env n = fetch_urls_requests env n) ∧
    (∀ b, pyLower b ≠ "selenium" →
      fetch_image_urls b env n = fetch_urls_requests env n) ∧
    (∀ b e, pyLower b ≠ "selenium" → env.requestsResult = Except.error e →
      fetch_image_urls b env n = Except.error e) := by
  have hlight : ∀ b : String, pyLower b ≠ "selenium" →
      fetch_image_urls b env n = fetch_urls_requests env n := by
    intro b hb
    have hcond : (pyLower b == "selenium") = false := by
      simpa using hb
    simp [fetch_image_urls, hcond]
  refine ⟨?_, hlight, ?_⟩
  · intro e he
    simp [fetch_image_urls, he, show pyLower "selenium" = "selenium" from rfl]
  · intro b e hb hreq
    rw [hlight b hb, fetch_urls_requests, hreq]
    rfl

/-- Witness for C3 at a concrete environment: a selenium failure degrades to
the requests outcome, and a non-selenium backend with a failing requests
strategy propagates exactly that error. -/
theorem C3_one_level_one_directional_degradation_witness :
    fetch_image_urls "selenium"
      ⟨Except.error (Exc.runtimeExc "no chromedriver"),
       Except.error (Exc.runtimeExc "HTTP 503"), fun _ => HttpResult.transportExc⟩ 20 =
      fetch_urls_requests
      ⟨Except.error (Exc.runtimeExc "no chromedriver"),
       Except.error (Exc.runtimeExc "HTTP 503"), fun _ => HttpResult.transportExc⟩ 20 ∧
    fetch_image_urls "requests"
      ⟨Except.error (Exc.runtimeExc "no chromedriver"),
       Except.error (Exc.runtimeExc "HTTP 503"), fun _ => HttpResult.transportExc⟩ 20 =
      Except.error (Exc.runtimeExc "HTTP 503") :=
  ⟨(C3_one_level_one_directional_degradation _ 20).1 _ rfl,
   (C3_one_level_one_directional_degradation _ 20).2.2 "requests" _ (by decide) rfl⟩

/-- C5: when the primary pattern has at least one match the fallback matches
are irrelevant (never used); when the primary pattern has zero matches the
fallback matches are used exactly as the primary ones would be; when both
match lists are empty the extraction is the empty list (no error value). -/
theorem C5_primary_shortcircuits_fallback (ou fb fb2 : List String) (n : Nat) :
    (ou ≠ [] → extract_urls ⟨ou, fb⟩ n = extract_urls ⟨ou, fb2⟩ n) ∧
    (fb ≠ [] → extract_urls ⟨[], fb⟩ n = extract_urls ⟨fb, fb2⟩ n) ∧
    extract_urls ⟨[], []⟩ n = [] := by
  refine ⟨?_, ?_, by simp [extract_urls, dedupLoop]⟩
  · intro h
    simp [extract_urls, List.isEmpty_iff, h]
  · intro h
    simp [extract_urls, List.isEmpty_iff, h]

/-- Witness for C5 at concrete match lists. -/
theorem C5_primary_shortcircuits_fallback_witness :
    (extract_urls ⟨["https://a.example/1.jpg"], ["https://x.example/y.png"]⟩ 20 =
      extract_urls ⟨["https://a.example/1.jpg"], []⟩ 20) ∧
    (extract_urls ⟨[], ["https://x.example/y.png"]⟩ 20 =
      extract_urls ⟨["https://x.example/y.png"], []⟩ 20) :=
  ⟨(C5_primary_shortcircuits_fallback ["https://a.example/1.jpg"]
      ["https://x.example/y.png"] [] 20).1 (by decide),
   (C5_primary_shortcircuits_fallback [] ["https://x.example/y.png"] [] 20).2.1
      (by decide)⟩

/-- C9: the domain filter tests denylisted substrings against the entire URL
string, not only the host: the URL `https://example.com/google.jpg` sits on a
third-party host (the host contains no denylisted substring) yet is rejected
by the filter and excluded from extraction because its path contains
`google.`. -/
theorem C9_filter_scans_whole_url :
    is_external_image "https://example.com/google.jpg" = false ∧
    strContains "google." "example.com" = false ∧
    extract_urls ⟨[], ["https://example.com/google.jpg"]⟩ 20 = [] := by
  decide

/-- C10: any configured backend whose lowercased value is not "selenium" —
including arbitrary unrecognized strings — silently uses the requests
strategy: the selector's result is exactly the requests strategy's result, and
the only possible error is one propagated from the requests strategy (no
configuration error is raised). -/
theorem C10_non_selenium_backend_uses_requests (b : String) (env : RunEnv) (n : Nat)
    (hb : pyLower b ≠ "selenium") :
    fetch_image_urls b env n = fetch_urls_requests env n ∧
    ∀ e, fetch_image_urls b env n = Except.error e →
      env.requestsResult = Except.error e := by
  have hcond : (pyLower b == "selenium") = false := by
    simpa using hb
  have h1 : fetch_image_urls b env n = fetch_urls_requests env n := by
    simp [fetch_image_urls, hcond]
  refine ⟨h1, ?_⟩
  intro e he
  rw [h1] at he
  cases hr : env.requestsResult with
  | error e2 =>
    rw [fetch_urls_requests, hr] at he
    cases he
    rfl
  | ok h =>
    rw [fetch_urls_requests, hr] at he
    cases he

/-- Witness for C10 at the unrecognized backend string "Playwright". -/
theorem C10_non_selenium_backend_uses_requests_witness :
    fetch_image_urls "Playwright"
      ⟨Except.ok ⟨[], []⟩, Except.ok ⟨["https://a.example/1.jpg"], []⟩,
       fun _ => HttpResult.transportExc⟩ 20 =
      fetch_urls_requests
      ⟨Except.ok ⟨[], []⟩, Except.ok ⟨["https://a.example/1.jpg"], []⟩,
       fun _ => HttpResult.transportExc⟩ 20 :=
  (C10_non_selenium_backend_uses_requests "Playwright" _ 20 (by decide)).1

/-- C8: a URL whose host contains a denylisted substring is never present in
the extractor's output, whatever the markup (in particular even when the URL
only matched the image-extension fallback pattern): the host is a substring of
the URL, so the denylisted substring occurs in the URL string and the domain
filter rejects it. -/
theorem C8_denylisted_host_never_extracted (d host url : String) (hd : d ∈ SKIP_DOMAINS)
    (hhost : strContains d host = true) (hurl : strContains host url = true)
    (html : Html) (n : Nat) : url ∉ extract_urls html n := by
  intro hmem
  have hdu : strContains d url = true := strContains_trans d host url hhost hurl
  have hany : SKIP_DOMAINS.any (fun d2 => strContains d2 url) = true :=
    List.any_eq_true.mpr ⟨d, hd, hdu⟩
  have hextf : is_external_image url = false := by
    rw [is_external_image, hany]
    rfl
  simp only [extract_urls] at hmem
  have hmem2 := (mem_dedupLoop [] _ url (List.mem_of_mem_take hmem)).2
  rw [hmem2] at hextf
  exact Bool.noConfusion hextf

/-- Witness for C8: a gstatic URL matched only by the fallback pattern is
absent from the output. -/
theorem C8_denylisted_host_never_extracted_witness :
    "https://www.gstatic.com/a.png" ∉
      extract_urls ⟨[], ["https://www.gstatic.com/a.png"]⟩ 20 :=
  C8_denylisted_host_never_extracted "gstatic." "www.gstatic.com"
    "https://www.gstatic.com/a.png" (by decide) (by decide) (by decide)
    ⟨[], ["https://www.gstatic.com/a.png"]⟩ 20

/-- C7 counterexample: the claim as stated fails — a URL can occur once among
the pattern matches and yet appear zero times (not exactly once) in the
extractor's output, because the domain filter removes it. -/
theorem C7_cex_match_absent_from_output :
    (["https://www.gstatic.com/a.jpg"].count "https://www.gstatic.com/a.jpg" = 1) ∧
    extract_urls ⟨["https://www.gstatic.com/a.jpg"], []⟩ 20 = [] := by
  decide

/-- C7 amended: among the pattern matches that pass the domain filter, each
URL appears at most once and at the relative position of its first occurrence
(the output is the first-seen deduplication of the filtered matches, truncated
to the limit); the output has no duplicates, preserves the matches' relative
order, and when there are more unique filtered candidates than the limit,
exactly `limit` are returned. -/
theorem C7_amended_firstseen_dedup_truncation (ou fb : List String) (n : Nat) :
    extract_urls ⟨ou, fb⟩ n =
      (specFirstSeenDedup ((if ou.isEmpty then fb else ou).filter
        (fun u => is_external_image u))).take n ∧
    (extract_urls ⟨ou, fb⟩ n).Nodup ∧
    List.Sublist (extract_urls ⟨ou, fb⟩ n) (if ou.isEmpty then fb else ou) ∧
    (n ≤ (dedupLoop [] (if ou.isEmpty then fb else ou)).length →
      (extract_urls ⟨ou, fb⟩ n).length = n) := by
  have hunfold : extract_urls ⟨ou, fb⟩ n =
      (dedupLoop [] (if ou.isEmpty then fb else ou)).take n := rfl
  refine ⟨?_, ?_, ?_, ?_⟩
  · rw [hunfold, dedupLoop_eq_spec]
    congr 1
  · rw [hunfold]
    exact List.Nodup.sublist (List.take_sublist _ _) (dedupLoop_nodup [] _)
  · rw [hunfold]
    exact List.Sublist.trans (List.take_sublist _ _) (dedupLoop_sublist [] _)
  · intro hn
    rw [hunfold, List.length_take]
    exact Nat.min_eq_left hn

/-- Witness for C7 amended: three matches with a duplicate of the first,
limit 1 — the output equals the truncated first-seen dedup and has exactly
`limit` elements. -/
theorem C7_amended_firstseen_dedup_truncation_witness :
    extract_urls ⟨["https://a.example/1.jpg", "https://b.example/2.jpg",
        "https://a.example/1.jpg"], []⟩ 1 =
      (specFirstSeenDedup ((["https://a.example/1.jpg", "https://b.example/2.jpg",
        "https://a.example/1.jpg"] : List String).filter
        (fun u => is_external_image u))).take 1 ∧
    (extract_urls ⟨["https://a.example/1.jpg", "https://b.example/2.jpg",
        "https://a.example/1.jpg"], []⟩ 1).length = 1 :=
  ⟨(C7_amended_firstseen_dedup_truncation ["https://a.example/1.jpg",
      "https://b.example/2.jpg", "https://a.example/1.jpg"] [] 1).1,
   (C7_amended_firstseen_dedup_truncation ["https://a.example/1.jpg",
      "https://b.example/2.jpg", "https://a.example/1.jpg"] [] 1).2.2.2 (by decide)⟩

/-- C1 counterexample: the claim fails on the code.  Configured backend
"selenium", the selenium strategy fails, the run degrades to the requests
strategy and completes — yet the emitted DownloadRecord's `backend` field is
the configured string "selenium", not the effective Lightweight backend
("requests"): `scrape_and_save` computes `backend_used` from `SCRAPE_BACKEND`
before fetching and never updates it on degradation. -/
theorem C1_cex_record_reports_configured_backend :
    scrape_and_save "cat" "selenium"
      ⟨Except.error (Exc.runtimeExc "chrome missing"),
       Except.ok ⟨["https://pix.example/a.jpg"], []⟩,
       fun _ => HttpResult.resp true "image/jpeg" [1]⟩ 20 =
      Except.ok [{ query := "cat", index := 0, url := "https://pix.example/a.jpg",
                   filename := "cat_0.jpg", static_path := "images/cat_0.jpg",
                   backend := "selenium" }] ∧
    ("selenium" : String) ≠ "requests" := by
  exact ⟨rfl, by decide⟩

/-- C1 amended: when the configured backend is BrowserAutomation ("selenium")
and the browser-automation strategy fails, the pipeline does complete using
the lightweight strategy with no error surfaced, but the `backend` field of
every emitted DownloadRecord still holds the configured backend string
"selenium" — not the effective Lightweight backend. -/
theorem C1_amended_backend_field_stays_configured (q : String) (env : RunEnv) (n : Nat)
    (e : Exc) (hsel : env.seleniumResult = Except.error e) :
    fetch_image_urls "selenium" env n = fetch_urls_requests env n ∧
    ∀ recs, scrape_and_save q "selenium" env n = Except.ok recs →
      ∀ r ∈ recs, r.backend = "selenium" := by
  have h1 : fetch_image_urls "selenium" env n = fetch_urls_requests env n := by
    simp [fetch_image_urls, hsel, show pyLower "selenium" = "selenium" from rfl]
  refine ⟨h1, ?_⟩
  intro recs hrun r hr
  cases hfetch : fetch_image_urls "selenium" env n with
  | error e2 =>
    simp only [scrape_and_save, hfetch] at hrun
    exact Except.noConfusion hrun
  | ok urls =>
    obtain ⟨hrecs, -⟩ := scrape_ok_inv q "selenium" env n urls hfetch recs hrun
    subst hrecs
    obtain ⟨j, -, -, -, -, hb, -, -⟩ :=
      downloadLoop_mem q (safeQueryOf q) (pyLower "selenium") env.dl urls 0 r hr
    exact hb

/-- Witness for C1 amended at a concrete degraded run. -/
theorem C1_amended_backend_field_stays_configured_witness :
    fetch_image_urls "selenium"
      ⟨Except.error (Exc.runtimeExc "chrome missing"),
       Except.ok ⟨["https://pix.example/a.jpg"], []⟩,
       fun _ => HttpResult.resp true "image/jpeg" [1]⟩ 20 =
      fetch_urls_requests
      ⟨Except.error (Exc.runtimeExc "chrome missing"),
       Except.ok ⟨["https://pix.example/a.jpg"], []⟩,
       fun _ => HttpResult.resp true "image/jpeg" [1]⟩ 20 ∧
    ∀ recs, scrape_and_save "cat" "selenium"
      ⟨Except.error (Exc.runtimeExc "chrome missing"),
       Except.ok ⟨["https://pix.example/a.jpg"], []⟩,
       fun _ => HttpResult.resp true "image/jpeg" [1]⟩ 20 = Except.ok recs →
      ∀ r ∈ recs, r.backend = "selenium" :=
  C1_amended_backend_field_stays_configured "cat"
    ⟨Except.error (Exc.runtimeExc "chrome missing"),
     Except.ok ⟨["https://pix.example/a.jpg"], []⟩,
     fun _ => HttpResult.resp true "image/jpeg" [1]⟩ 20
    (Exc.runtimeExc "chrome missing") rfl

/-- C2 counterexample: the claim fails on the code.  Two candidates, the first
download fails: the single successful record (position 0 of the
successful-download sequence) carries `index` 1 — the candidate position, not
the successful-download position — so record indices are not contiguous from
0. -/
theorem C2_cex_index_not_success_position :
    scrape_and_save "dog" "requests"
      ⟨Except.ok ⟨[], []⟩,
       Except.ok ⟨["https://a.example/1.jpg", "https://b.example/2.jpg"], []⟩,
       fun u => if u == "https://a.example/1.jpg" then HttpResult.resp false "image/jpeg" []
                else HttpResult.resp true "image/jpeg" [1]⟩ 20 =
      Except.ok [{ query := "dog", index := 1, url := "https://b.example/2.jpg",
                   filename := "dog_1.jpg", static_path := "images/dog_1.jpg",
                   backend := "requests" }] ∧
    (1 : Nat) ≠ 0 := by
  exact ⟨rfl, by decide⟩

/-- C2 amended: each emitted DownloadRecord's `index` field equals the
candidate's zero-based position in the candidate list — the same position used
in the filename — so when an earlier candidate's download fails, the record
indices keep their candidate positions (possibly non-contiguous) instead of
being renumbered by success order. -/
theorem C2_amended_index_is_candidate_position (q b : String) (env : RunEnv) (n : Nat)
    (urls : List String) (hf : fetch_image_urls b env n = Except.ok urls)
    (recs : List DownloadRecord) (hr : scrape_and_save q b env n = Except.ok recs) :
    ∀ r ∈ recs, urls.get? r.index = some r.url ∧
      r.filename = safeQueryOf q ++ "_" ++ toString r.index ++ ".jpg" := by
  obtain ⟨hrecs, -⟩ := scrape_ok_inv q b env n urls hf recs hr
  subst hrecs
  intro r hrm
  obtain ⟨j, hget, hidx, hfn, -, -, -, -⟩ :=
    downloadLoop_mem q (safeQueryOf q) (pyLower b) env.dl urls 0 r hrm
  refine ⟨?_, hfn⟩
  rw [hidx, Nat.zero_add]
  exact hget

/-- Witness for C2 amended at the two-candidate run whose first download
fails. -/
theorem C2_amended_index_is_candidate_position_witness :
    (["https://a.example/1.jpg", "https://b.example/2.jpg"] : List String).get? 1 =
      some "https://b.example/2.jpg" ∧
    ("dog_1.jpg" : String) = safeQueryOf "dog" ++ "_" ++ toString (1 : Nat) ++ ".jpg" :=
  C2_amended_index_is_candidate_position "dog" "requests"
    ⟨Except.ok ⟨[], []⟩,
     Except.ok ⟨["https://a.example/1.jpg", "https://b.example/2.jpg"], []⟩,
     fun u => if u == "https://a.example/1.jpg" then HttpResult.resp false "image/jpeg" []
              else HttpResult.resp true "image/jpeg" [1]⟩ 20
    ["https://a.example/1.jpg", "https://b.example/2.jpg"] rfl
    [{ query := "dog", index := 1, url := "https://b.example/2.jpg",
       filename := "dog_1.jpg", static_path := "images/dog_1.jpg",
       backend := "requests" }] rfl
    { query := "dog", index := 1, url := "https://b.example/2.jpg",
      filename := "dog_1.jpg", static_path := "images/dog_1.jpg",
      backend := "requests" } (by simp)

/-- C4: given a successful fetch, the run fails with the no-results
`ValueError` exactly when the candidate list is empty; for a non-empty
candidate list the run always reports success, returning one record per
successful download (per-URL failures only shrink the list). -/
theorem C4_no_results_error_iff_empty (q b : String) (env : RunEnv) (n : Nat)
    (urls : List String) (hf : fetch_image_urls b env n = Except.ok urls) :
    (scrape_and_save q b env n = Except.error (PipelineError.valueError q) ↔ urls = []) ∧
    (urls ≠ [] →
      scrape_and_save q b env n =
        Except.ok (downloadLoop q (safeQueryOf q) (pyLower b) env.dl 0 urls) ∧
      (downloadLoop q (safeQueryOf q) (pyLower b) env.dl 0 urls).length =
        (urls.filter (fun u => (download_image (env.dl u)).success)).length) := by
  have hne : ∀ _ : urls ≠ [], scrape_and_save q b env n =
      Except.ok (downloadLoop q (safeQueryOf q) (pyLower b) env.dl 0 urls) := by
    intro h
    simp only [scrape_and_save, hf]
    rw [if_neg (by simpa [List.isEmpty_iff] using h)]
  constructor
  · constructor
    · intro hval
      by_contra hne2
      rw [hne hne2] at hval
      exact Except.noConfusion hval
    · intro he
      subst he
      simp [scrape_and_save, hf]
  · intro h
    exact ⟨hne h, downloadLoop_length q (safeQueryOf q) (pyLower b) env.dl urls 0⟩

/-- Witness for C4: three candidates, the second download returns a 404-style
failing status — the run reports success with records for the other two. -/
theorem C4_no_results_error_iff_empty_witness :
    scrape_and_save "cat" "requests"
      ⟨Except.ok ⟨[], []⟩,
       Except.ok ⟨["https://a.example/1.jpg", "https://b.example/2.jpg",
         "https://c.example/3.jpg"], []⟩,
       fun u => if u == "https://b.example/2.jpg" then HttpResult.resp false "image/jpeg" []
                else HttpResult.resp true "image/jpeg" [2]⟩ 20 =
      Except.ok (downloadLoop "cat" (safeQueryOf "cat") (pyLower "requests")
        (RunEnv.dl ⟨Except.ok ⟨[], []⟩,
         Except.ok ⟨["https://a.example/1.jpg", "https://b.example/2.jpg",
           "https://c.example/3.jpg"], []⟩,
         fun u => if u == "https://b.example/2.jpg" then HttpResult.resp false "image/jpeg" []
                  else HttpResult.resp true "image/jpeg" [2]⟩) 0
        ["https://a.example/1.jpg", "https://b.example/2.jpg", "https://c.example/3.jpg"]) ∧
    (downloadLoop "cat" (safeQueryOf "cat") (pyLower "requests")
        (RunEnv.dl ⟨Except.ok ⟨[], []⟩,
         Except.ok ⟨["https://a.example/1.jpg", "https://b.example/2.jpg",
           "https://c.example/3.jpg"], []⟩,
         fun u => if u == "https://b.example/2.jpg" then HttpResult.resp false "image/jpeg" []
                  else HttpResult.resp true "image/jpeg" [2]⟩) 0
        ["https://a.example/1.jpg", "https://b.example/2.jpg", "https://c.example/3.jpg"]).length =
      ((["https://a.example/1.jpg", "https://b.example/2.jpg",
         "https://c.example/3.jpg"] : List String).filter
        (fun u => (download_image ((RunEnv.dl ⟨Except.ok ⟨[], []⟩,
         Except.ok ⟨["https://a.example/1.jpg", "https://b.example/2.jpg",
           "https://c.example/3.jpg"], []⟩,
         fun u2 => if u2 == "https://b.example/2.jpg" then HttpResult.resp false "image/jpeg" []
                   else HttpResult.resp true "image/jpeg" [2]⟩) u)).success)).length :=
  (C4_no_results_error_iff_empty "cat" "requests"
    ⟨Except.ok ⟨[], []⟩,
     Except.ok ⟨["https://a.example/1.jpg", "https://b.example/2.jpg",
       "https://c.example/3.jpg"], []⟩,
     fun u => if u == "https://b.example/2.jpg" then HttpResult.resp false "image/jpeg" []
              else HttpResult.resp true "image/jpeg" [2]⟩ 20
    ["https://a.example/1.jpg", "https://b.example/2.jpg", "https://c.example/3.jpg"]
    rfl).2 (by decide)

/-- C6: a response with a successful status whose content type contains
neither an "image" token nor an "octet-stream" token (e.g. `text/html`) makes
the download executor return `False` with nothing written to the destination,
and the orchestrator emits no DownloadRecord for that URL. -/
theorem C6_content_type_mismatch_rejected (ct : String)
    (himg : strContains "image" ct = false) (hoct : strContains "octet-stream" ct = false)
    (body : List Nat) (q b url : String) (env : RunEnv) (n : Nat)
    (hurl : env.dl url = HttpResult.resp true ct body)
    (recs : List DownloadRecord) (hrun : scrape_and_save q b env n = Except.ok recs) :
    download_image (env.dl url) = ⟨false, none⟩ ∧ ∀ r ∈ recs, r.url ≠ url := by
  have hdl : download_image (env.dl url) = ⟨false, none⟩ := by
    rw [hurl]
    simp [download_image, himg, hoct]
  refine ⟨hdl, ?_⟩
  intro r hr hequrl
  cases hfetch : fetch_image_urls b env n with
  | error e =>
    simp only [scrape_and_save, hfetch] at hrun
    exact Except.noConfusion hrun
  | ok urls =>
    obtain ⟨hrecs, -⟩ := scrape_ok_inv q b env n urls hfetch recs hrun
    subst hrecs
    obtain ⟨j, -, -, -, -, -, -, hsucc⟩ :=
      downloadLoop_mem q (safeQueryOf q) (pyLower b) env.dl urls 0 r hr
    rw [hequrl, hdl] at hsucc
    exact Bool.noConfusion hsucc

/-- Witness for C6: a `text/html` interstitial page among the candidates is
rejected and absent from the emitted records. -/
theorem C6_content_type_mismatch_rejected_witness :
    download_image
      ((RunEnv.dl ⟨Except.ok ⟨[], []⟩,
        Except.ok ⟨["https://ok.example/a.jpg", "https://bad.example/x.jpg"], []⟩,
        fun u => if u == "https://bad.example/x.jpg" then HttpResult.resp true "text/html" [0]
                 else HttpResult.resp true "image/png" [5]⟩) "https://bad.example/x.jpg") =
      ⟨false, none⟩ ∧
    ∀ r ∈ [{ query := "fox", index := 0, url := "https://ok.example/a.jpg",
             filename := "fox_0.jpg", static_path := "images/fox_0.jpg",
             backend := "requests" : DownloadRecord }],
      r.url ≠ "https://bad.example/x.jpg" :=
  C6_content_type_mismatch_rejected "text/html" (by decide) (by decide) [0]
    "fox" "requests" "https://bad.example/x.jpg"
    ⟨Except.ok ⟨[], []⟩,
     Except.ok ⟨["https://ok.example/a.jpg", "https://bad.example/x.jpg"], []⟩,
     fun u => if u == "https://bad.example/x.jpg" then HttpResult.resp true "text/html" [0]
              else HttpResult.resp true "image/png" [5]⟩ 20 rfl _ rfl

end SmartScrape
